import Mathlib

/-!
Shallow embedding of the cctailpipe incremental tail-and-dispatch engine.

The embedding follows the TypeScript source:
  * `ProcessingPipelineManager` (core/ProcessingPipelineManager.ts): plugin
    registries, global filters/outputs, pipeline evaluation.
  * `JsonlStreamProcessor` (core/JsonlStreamProcessor.ts): offset-tracked
    buffered reads, full reads, the concurrency guard.
  * `JsonlStreamServer` (core/JsonlStreamServer.ts): start/stop lifecycle.

Modelling conventions:
  * Asynchronous plugin calls that may throw/reject are modelled as pure
    functions into `Except String _`; `await`ing them is sequential in the
    source, so a pure sequential model is faithful.
  * JS `Map` registries are modelled as association lists where insertion
    removes any previous binding for the key (Map.set overwrite semantics);
    `Map.get` is `List.find?`.
  * File bytes are modelled as `List Char` (one character per byte; the
    watched content in the claims is ASCII) and byte offsets as indices.
  * `JSON.parse` is external to the engine and is passed in as a parameter
    `parse : List Char → Except String ρ`.
  * `this.emit(...)` calls are collected into event lists.  `console.log`
    diagnostics are not modelled, except the `console.warn` of the
    concurrency guard in `processFile`, which is kept as an explicit
    event because the specification mentions that warning.
  * Which plugin invocations actually happened is recorded in an `Action`
    trace (one entry per `filter.filter(record)` / `output.output(record)`
    call), so that "output X was (not) invoked" is statable.
-/

namespace Cctailpipe

/-- A filter plugin: `filter(record) -> bool | Promise<bool>`, may throw. -/
structure FilterPlugin (ρ : Type) where
  name : String
  filter : ρ → Except String Bool

/-- An output plugin: `output(record) -> void | Promise<void>`, may throw. -/
structure OutputPlugin (ρ : Type) where
  name : String
  output : ρ → Except String Unit

/-- `ProcessingPipeline` from types/index.ts: `name`, optional `filter`,
optional `filters` (declared in the type with the comment
「複数フィルター対応（AND条件）」, i.e. multi-filter AND support), and
`outputs`. -/
structure ProcessingPipeline where
  name : String
  filter : Option String := none
  filters : Option (List String) := none
  outputs : List String
deriving DecidableEq

/-- One entry of a pipeline's `outputResults` array. -/
structure OutputResult where
  outputName : String
  success : Bool
  error : Option String := none
deriving DecidableEq

/-- One entry of the aggregated per-record results array. -/
structure PipelineResult where
  pipelineName : String
  success : Bool
  filtered : Option Bool := none
  error : Option String := none
  outputResults : List OutputResult
deriving DecidableEq

/-- A plugin invocation performed while processing a record. -/
inductive Action (ρ : Type) where
  | filterCall (name : String) (record : ρ)
  | outputCall (name : String) (record : ρ)
deriving DecidableEq

/-- Whether an action is an output-plugin invocation. -/
def Action.isOutputCall {ρ : Type} : Action ρ → Bool
  | Action.outputCall _ _ => true
  | Action.filterCall _ _ => false

/-- Events emitted by `ProcessingPipelineManager`.  `pipelineErr` models the
`pipeline-error` emit of the catch-all in `processRecord`; it is unreachable
in this embedding because, as in the source, every plugin failure is caught
by the inner loops. -/
inductive PMEvent (ρ : Type) where
  | filteredGlobal (record : ρ) (filePath : String) (lineNumber : Nat)
  | filteredPipeline (record : ρ) (pipeline : String) (filterName : String)
      (filePath : String) (lineNumber : Nat)
  | outputPipeline (record : ρ) (pipeline : String) (outputName : String)
      (filePath : String) (lineNumber : Nat)
  | outputGlobal (record : ρ) (outputName : String)
      (filePath : String) (lineNumber : Nat)
  | pipelineResults (record : ρ) (filePath : String) (lineNumber : Nat)
      (results : List PipelineResult)
  | pipelineErr (record : ρ) (filePath : String) (lineNumber : Nat)
      (error : String)
deriving DecidableEq

/-- The manager's registries and configuration
(`filters`/`outputs` Maps, `pipelines`, `globalFilters`, `globalOutputs`). -/
structure ProcessingPipelineManager (ρ : Type) where
  filters : List (String × FilterPlugin ρ) := []
  outputs : List (String × OutputPlugin ρ) := []
  pipelines : List ProcessingPipeline := []
  globalFilters : List String := []
  globalOutputs : List String := []

/-- `addFilter`: `this.filters.set(filter.name, filter)`. -/
def addFilter {ρ : Type} (st : ProcessingPipelineManager ρ) (f : FilterPlugin ρ) :
    ProcessingPipelineManager ρ :=
  { st with filters := (f.name, f) :: st.filters.filter (fun e => e.1 != f.name) }

/-- `addOutput`: `this.outputs.set(output.name, output)`. -/
def addOutput {ρ : Type} (st : ProcessingPipelineManager ρ) (o : OutputPlugin ρ) :
    ProcessingPipelineManager ρ :=
  { st with outputs := (o.name, o) :: st.outputs.filter (fun e => e.1 != o.name) }

/-- `this.filters.get(name)`. -/
def getFilterPlugin {ρ : Type} (st : ProcessingPipelineManager ρ) (n : String) :
    Option (FilterPlugin ρ) :=
  (st.filters.find? (fun e => e.1 == n)).map Prod.snd

/-- `this.outputs.get(name)`. -/
def getOutputPlugin {ρ : Type} (st : ProcessingPipelineManager ρ) (n : String) :
    Option (OutputPlugin ρ) :=
  (st.outputs.find? (fun e => e.1 == n)).map Prod.snd

/-- The loop body of `applyGlobalFilters`, over a list of filter names:
a missing name is skipped (warn + continue); `false` or a thrown error
returns `false`; otherwise continue.  Returns the invocation trace and the
boolean result. -/
def applyGlobalFiltersAux {ρ : Type} (st : ProcessingPipelineManager ρ) (r : ρ) :
    List String → List (Action ρ) × Bool
  | [] => ([], true)
  | n :: rest =>
    match getFilterPlugin st n with
    | none => applyGlobalFiltersAux st r rest
    | some f =>
      match f.filter r with
      | Except.ok true =>
        let t := applyGlobalFiltersAux st r rest
        (Action.filterCall n r :: t.1, t.2)
      | Except.ok false => ([Action.filterCall n r], false)
      | Except.error _ => ([Action.filterCall n r], false)

/-- `applyGlobalFilters(record)`. -/
def applyGlobalFilters {ρ : Type} (st : ProcessingPipelineManager ρ) (r : ρ) :
    List (Action ρ) × Bool :=
  applyGlobalFiltersAux st r st.globalFilters

/-- The output loop of `processPipeline`, over `pipeline.outputs`: a missing
output name produces a failed `OutputResult` and continues; an output that
throws produces a failed result with the error message and continues; a
success emits `record-output-pipeline`. -/
def runPipelineOutputs {ρ : Type} (st : ProcessingPipelineManager ρ)
    (pname : String) (r : ρ) (filePath : String) (lineNumber : Nat) :
    List String → List (Action ρ) × List (PMEvent ρ) × List OutputResult
  | [] => ([], [], [])
  | n :: rest =>
    match getOutputPlugin st n with
    | none =>
      let t := runPipelineOutputs st pname r filePath lineNumber rest
      (t.1, t.2.1,
       { outputName := n, success := false, error := some "Output plugin not found" } :: t.2.2)
    | some o =>
      let t := runPipelineOutputs st pname r filePath lineNumber rest
      match o.output r with
      | Except.ok _ =>
        (Action.outputCall n r :: t.1,
         PMEvent.outputPipeline r pname n filePath lineNumber :: t.2.1,
         { outputName := n, success := true, error := none } :: t.2.2)
      | Except.error msg =>
        (Action.outputCall n r :: t.1, t.2.1,
         { outputName := n, success := false, error := some msg } :: t.2.2)

/-- `processPipeline(pipeline, record, filePath, lineNumber)`.  Only the
singular `pipeline.filter` field is consulted (the source never reads
`pipeline.filters`).  A missing filter name throws; a filter rejection emits
`record-filtered-pipeline` and returns a filtered result; otherwise the
outputs run. -/
def processPipeline {ρ : Type} (st : ProcessingPipelineManager ρ)
    (p : ProcessingPipeline) (r : ρ) (filePath : String) (lineNumber : Nat) :
    List (Action ρ) × List (PMEvent ρ) × Except String PipelineResult :=
  match p.filter with
  | some fn =>
    match getFilterPlugin st fn with
    | none => ([], [], Except.error ("フィルターが見つかりません: " ++ fn))
    | some f =>
      match f.filter r with
      | Except.error msg => ([Action.filterCall fn r], [], Except.error msg)
      | Except.ok false =>
        ([Action.filterCall fn r],
         [PMEvent.filteredPipeline r p.name fn filePath lineNumber],
         Except.ok { pipelineName := p.name, success := true, filtered := some true,
                     error := none, outputResults := [] })
      | Except.ok true =>
        let t := runPipelineOutputs st p.name r filePath lineNumber p.outputs
        (Action.filterCall fn r :: t.1, t.2.1,
         Except.ok { pipelineName := p.name, success := true, filtered := some false,
                     error := none, outputResults := t.2.2 })
  | none =>
    let t := runPipelineOutputs st p.name r filePath lineNumber p.outputs
    (t.1, t.2.1,
     Except.ok { pipelineName := p.name, success := true, filtered := some false,
                 error := none, outputResults := t.2.2 })

/-- The loop of `processPipelines` over a pipeline list: a throw inside
`processPipeline` is caught per pipeline and recorded as a failed result,
and the loop continues with the remaining pipelines. -/
def runPipelines {ρ : Type} (st : ProcessingPipelineManager ρ) (r : ρ)
    (filePath : String) (lineNumber : Nat) :
    List ProcessingPipeline → List (Action ρ) × List (PMEvent ρ) × List PipelineResult
  | [] => ([], [], [])
  | p :: rest =>
    let h := processPipeline st p r filePath lineNumber
    let t := runPipelines st r filePath lineNumber rest
    match h.2.2 with
    | Except.ok pr => (h.1 ++ t.1, h.2.1 ++ t.2.1, pr :: t.2.2)
    | Except.error msg =>
      (h.1 ++ t.1, h.2.1 ++ t.2.1,
       { pipelineName := p.name, success := false, filtered := none,
         error := some msg, outputResults := [] } :: t.2.2)

/-- `processPipelines(record, filePath, lineNumber)`. -/
def processPipelines {ρ : Type} (st : ProcessingPipelineManager ρ) (r : ρ)
    (filePath : String) (lineNumber : Nat) :
    List (Action ρ) × List (PMEvent ρ) × List PipelineResult :=
  runPipelines st r filePath lineNumber st.pipelines

/-- The loop of `applyGlobalOutputs` over a list of output names: a missing
name is skipped; a throw is caught and skipped; a success emits
`record-output-global`. -/
def applyGlobalOutputsAux {ρ : Type} (st : ProcessingPipelineManager ρ) (r : ρ)
    (filePath : String) (lineNumber : Nat) :
    List String → List (Action ρ) × List (PMEvent ρ)
  | [] => ([], [])
  | n :: rest =>
    match getOutputPlugin st n with
    | none => applyGlobalOutputsAux st r filePath lineNumber rest
    | some o =>
      let t := applyGlobalOutputsAux st r filePath lineNumber rest
      match o.output r with
      | Except.ok _ =>
        (Action.outputCall n r :: t.1,
         PMEvent.outputGlobal r n filePath lineNumber :: t.2)
      | Except.error _ => (Action.outputCall n r :: t.1, t.2)

/-- `applyGlobalOutputs(record, filePath, lineNumber)`. -/
def applyGlobalOutputs {ρ : Type} (st : ProcessingPipelineManager ρ) (r : ρ)
    (filePath : String) (lineNumber : Nat) :
    List (Action ρ) × List (PMEvent ρ) :=
  applyGlobalOutputsAux st r filePath lineNumber st.globalOutputs

/-- `processRecord(record, filePath, lineNumber)`: global filters first; on
rejection emit `record-filtered-global` and return; otherwise run all
pipelines, then (if any are configured) the global outputs, then emit
`pipeline-results` with the aggregated report. -/
def processRecord {ρ : Type} (st : ProcessingPipelineManager ρ) (r : ρ)
    (filePath : String) (lineNumber : Nat) :
    List (Action ρ) × List (PMEvent ρ) :=
  let g := applyGlobalFilters st r
  if g.2 then
    let pp := processPipelines st r filePath lineNumber
    let go :=
      if 0 < st.globalOutputs.length then applyGlobalOutputs st r filePath lineNumber
      else ([], [])
    (g.1 ++ pp.1 ++ go.1,
     pp.2.1 ++ go.2 ++ [PMEvent.pipelineResults r filePath lineNumber pp.2.2])
  else
    (g.1, [PMEvent.filteredGlobal r filePath lineNumber])

/-! ## JsonlStreamProcessor (core/JsonlStreamProcessor.ts) -/

/-- Events emitted (or warned) by `JsonlStreamProcessor`. -/
inductive PEvent where
  | processingStart (filePath : String)
  | processingComplete (filePath : String)
  | processingErr (filePath : String)
  | parseErr (filePath : String) (lineNumber : Nat) (line : List Char)
      (error : String)
  | warnAlreadyProcessing (filePath : String)
deriving DecidableEq

/-- Node `readline` over a text stream: lines are delimited by `\n`, `\r\n`
(`crlfDelay: Infinity` merges the pair) or a lone `\r`; the separator is not
part of the line; a final unterminated chunk IS yielded as a line; a stream
ending in a separator does not yield a trailing empty line.  `acc` is the
current partial line. -/
def splitLinesCore (acc : List Char) (afterCR : Bool) : List Char → List (List Char)
  | [] => if acc.isEmpty then [] else [acc]
  | c :: rest =>
    if c = '\r' then acc :: splitLinesCore [] true rest
    else if c = '\n' then
      if afterCR then splitLinesCore [] false rest
      else acc :: splitLinesCore [] false rest
    else splitLinesCore (acc ++ [c]) false rest

/-- The lines yielded by `readline` for a whole stream. -/
def splitLines (content : List Char) : List (List Char) :=
  splitLinesCore [] false content

/-- `line.trim() === ''`: the line contains only whitespace. -/
def isBlankLine (l : List Char) : Bool :=
  l.all Char.isWhitespace

/-- The `for await (const line of rl)` loop shared by both read paths:
increment the line number, skip blank lines, parse each line (a parse
failure emits `parse-error` and continues), and hand each parsed record to
`processRecord` — modelled by returning the `(record, lineNumber)` pairs in
order. -/
def parseLines {ρ : Type} (parse : List Char → Except String ρ)
    (filePath : String) : Nat → List (List Char) → List PEvent × List (ρ × Nat)
  | _, [] => ([], [])
  | n, l :: rest =>
    if isBlankLine l then parseLines parse filePath (n + 1) rest
    else
      match parse l with
      | Except.ok r =>
        let t := parseLines parse filePath (n + 1) rest
        (t.1, (r, n + 1) :: t.2)
      | Except.error e =>
        let t := parseLines parse filePath (n + 1) rest
        (PEvent.parseErr filePath (n + 1) l e :: t.1, t.2)

/-- `JsonlStreamProcessor` mutable state: the concurrency flag, the
per-file offset table (`filePositions`) and the buffering switch. -/
structure ProcessorState where
  isProcessing : Bool := false
  filePositions : List (String × Nat) := []
  enableBuffering : Bool := true
deriving DecidableEq

/-- `this.filePositions.get(filePath) || 0`. -/
def getFilePosition (st : ProcessorState) (filePath : String) : Nat :=
  match st.filePositions.find? (fun e => e.1 == filePath) with
  | some e => e.2
  | none => 0

/-- `this.filePositions.set(filePath, n)`. -/
def setFilePosition (st : ProcessorState) (filePath : String) (n : Nat) :
    ProcessorState :=
  { st with filePositions :=
      (filePath, n) :: st.filePositions.filter (fun e => e.1 != filePath) }

/-- `getLineNumberFromPosition`: `position === 0 ? 0 : floor(position / 100)`
(the path argument is unused in the source as well). -/
def getLineNumberFromPosition (_filePath : String) (position : Nat) : Nat :=
  if position = 0 then 0 else position / 100

/-- `processFileComplete(filePath)`: read the whole file from byte 0, line
numbers from 1.  Does NOT touch `filePositions`. -/
def processFileComplete {ρ : Type} (parse : List Char → Except String ρ)
    (filePath : String) (content : List Char) :
    List PEvent × List (ρ × Nat) :=
  parseLines parse filePath 0 (splitLines content)

/-- `processFileWithBuffering(filePath)`: stat the file (`content.length` is
the stat size), fetch the stored offset; on `size < last` reset the offset
to 0 and delegate to `processFileComplete` (which leaves the offset at 0);
on `size == last` return with nothing to do; otherwise stream from `last`
to end of file and set the offset to `size`. -/
def processFileWithBuffering {ρ : Type} (parse : List Char → Except String ρ)
    (st : ProcessorState) (filePath : String) (content : List Char) :
    ProcessorState × List PEvent × List (ρ × Nat) :=
  let size := content.length
  let lastPosition := getFilePosition st filePath
  if size < lastPosition then
    let t := processFileComplete parse filePath content
    (setFilePosition st filePath 0, t.1, t.2)
  else if size = lastPosition then
    (st, [], [])
  else
    let t := parseLines parse filePath
      (getLineNumberFromPosition filePath lastPosition)
      (splitLines (content.drop lastPosition))
    (setFilePosition st filePath size, t.1, t.2)

/-- `processFile(filePath)`: the concurrency guard (`isProcessing`) makes a
call arriving while another is in flight warn and return at once, touching
nothing.  Otherwise emit `processing-start`, run the buffered or complete
path (`content = none` models a stat/open failure: `processing-error`, no
offset change), and emit `processing-complete`; the `finally` clears
`isProcessing`, so the returned state has it unchanged. -/
def processFile {ρ : Type} (parse : List Char → Except String ρ)
    (st : ProcessorState) (filePath : String) (content : Option (List Char)) :
    ProcessorState × List PEvent × List (ρ × Nat) :=
  if st.isProcessing then
    (st, [PEvent.warnAlreadyProcessing filePath], [])
  else
    match content with
    | none =>
      (st, [PEvent.processingStart filePath, PEvent.processingErr filePath], [])
    | some c =>
      if st.enableBuffering then
        let t := processFileWithBuffering parse st filePath c
        (t.1, PEvent.processingStart filePath :: t.2.1
                ++ [PEvent.processingComplete filePath], t.2.2)
      else
        let t := processFileComplete parse filePath c
        (st, PEvent.processingStart filePath :: t.1
               ++ [PEvent.processingComplete filePath], t.2)

/-- `resetFilePosition(filePath)`: `this.filePositions.delete(filePath)`. -/
def resetFilePosition (st : ProcessorState) (filePath : String) : ProcessorState :=
  { st with filePositions := st.filePositions.filter (fun e => e.1 != filePath) }

/-! ## JsonlStreamServer (core/JsonlStreamServer.ts) -/

/-- Server-level events; the two warnings model the `console.warn` calls of
the idempotent `start`/`stop` no-ops. -/
inductive SEvent where
  | started
  | stopped
  | warnAlreadyRunning
  | warnNotRunning
deriving DecidableEq

/-- `JsonlStreamServer` state: `isRunning`, plus whether the `FileWatcher`
has an active watcher. -/
structure ServerState where
  isRunning : Bool
  watcherActive : Bool
deriving DecidableEq

/-- `JsonlStreamServer.start()`: warn and return if already running; throw
(`Error`, returned as `some message`) if the watch directory does not
exist — before `isRunning` is set; otherwise set `isRunning`, start the
watcher and emit `started`. -/
def JsonlStreamServer.start (s : ServerState) (watchDirectory : String)
    (dirExists : Bool) : ServerState × List SEvent × Option String :=
  if s.isRunning then (s, [SEvent.warnAlreadyRunning], none)
  else if dirExists then
    ({ isRunning := true, watcherActive := true }, [SEvent.started], none)
  else
    (s, [], some ("監視ディレクトリが存在しません: " ++ watchDirectory))

/-- `JsonlStreamServer.stop()`: warn and return if not running; otherwise
clear `isRunning`, stop the watcher (closing it and clearing its debounce
timers) and emit `stopped`. -/
def JsonlStreamServer.stop (s : ServerState) : ServerState × List SEvent :=
  if s.isRunning then
    ({ isRunning := false, watcherActive := false }, [SEvent.stopped])
  else (s, [SEvent.warnNotRunning])

/-! ## Auxiliary predicates and concrete instances used by the theorems -/

/-- One step of the global-filter loop lets the record through: the name is
unregistered (skip) or the filter returns `ok true`. -/
def globalFilterStepPasses {ρ : Type} (st : ProcessingPipelineManager ρ)
    (r : ρ) (n : String) : Bool :=
  match getFilterPlugin st n with
  | none => true
  | some f =>
    match f.filter r with
    | Except.ok true => true
    | _ => false

/-- C1 instance: filter `A` rejects every record. -/
def c1FilterA : FilterPlugin Nat := ⟨"A", fun _ => Except.ok false⟩

/-- C1 instance: filter `B` accepts every record. -/
def c1FilterB : FilterPlugin Nat := ⟨"B", fun _ => Except.ok true⟩

/-- C1 instance: output `X` always succeeds. -/
def c1OutputX : OutputPlugin Nat := ⟨"X", fun _ => Except.ok ()⟩

/-- C1 instance: a pipeline declaring its conjunction through the `filters`
list (the multi-filter AND field of `ProcessingPipeline`). -/
def c1Pipeline : ProcessingPipeline :=
  { name := "P", filter := none, filters := some ["A", "B"], outputs := ["X"] }

/-- C1 instance: manager with `A`, `B`, `X` registered and the one pipeline. -/
def c1Manager : ProcessingPipelineManager Nat :=
  { filters := [("A", c1FilterA), ("B", c1FilterB)],
    outputs := [("X", c1OutputX)],
    pipelines := [c1Pipeline],
    globalFilters := [], globalOutputs := [] }

/-- C4 witness instance: global filter `G` rejects every record. -/
def c4Reject : FilterPlugin Nat := ⟨"G", fun _ => Except.ok false⟩

/-- C4 witness instance: output `O` always succeeds. -/
def c4Output : OutputPlugin Nat := ⟨"O", fun _ => Except.ok ()⟩

/-- C4 witness instance: a manager whose only global filter rejects, with a
pipeline and a global output that must therefore never fire. -/
def c4Manager : ProcessingPipelineManager Nat :=
  { filters := [("G", c4Reject)],
    outputs := [("O", c4Output)],
    pipelines := [{ name := "P4", filter := none, filters := none, outputs := ["O"] }],
    globalFilters := ["G"], globalOutputs := ["O"] }

/-- C5 witness instance: output `X` throws for every record. -/
def c5OutX : OutputPlugin Nat := ⟨"X", fun _ => Except.error "boom"⟩

/-- C5 witness instance: output `Y` always succeeds. -/
def c5OutY : OutputPlugin Nat := ⟨"Y", fun _ => Except.ok ()⟩

/-- C5 witness instance: a pipeline with outputs `[X, Y]` in that order. -/
def c5Pipeline : ProcessingPipeline :=
  { name := "P5", filter := none, filters := none, outputs := ["X", "Y"] }

/-- C5 witness instance. -/
def c5Manager : ProcessingPipelineManager Nat :=
  { filters := [], outputs := [("X", c5OutX), ("Y", c5OutY)],
    pipelines := [c5Pipeline], globalFilters := [], globalOutputs := [] }

/-- C6 witness instance: output `O` always succeeds. -/
def c6Output : OutputPlugin Nat := ⟨"O", fun _ => Except.ok ()⟩

/-- C6 witness instance: a pipeline naming the unregistered filter `NOPE`. -/
def c6PipelineP : ProcessingPipeline :=
  { name := "P6", filter := some "NOPE", filters := none, outputs := ["O"] }

/-- C6 witness instance: a healthy second pipeline. -/
def c6PipelineQ : ProcessingPipeline :=
  { name := "Q6", filter := none, filters := none, outputs := ["O"] }

/-- C6 witness instance. -/
def c6Manager : ProcessingPipelineManager Nat :=
  { filters := [], outputs := [("O", c6Output)],
    pipelines := [c6PipelineP, c6PipelineQ],
    globalFilters := [], globalOutputs := [] }

/-- C7 witness instance: records are the raw lines. -/
def c7Parse : List Char → Except String (List Char) := fun l => Except.ok l

/-- C7 witness instance: idle processor that has read `"f"` to offset 0. -/
def c7State : ProcessorState := ⟨false, [("f", 0)], true⟩

/-- C9 witness instance: records are the raw lines. -/
def c9Parse : List Char → Except String (List Char) := fun l => Except.ok l

/-- C10 witness instance: global filter `P1` passes every record. -/
def c10Pass : FilterPlugin Nat := ⟨"P1", fun _ => Except.ok true⟩

/-- C10 witness instance: global filter `G` throws for every record. -/
def c10Throw : FilterPlugin Nat := ⟨"G", fun _ => Except.error "kaboom"⟩

/-- C10 witness instance: output `O` always succeeds. -/
def c10Output : OutputPlugin Nat := ⟨"O", fun _ => Except.ok ()⟩

/-- C10 witness instance: global filters `[P1, G]` where `G` throws, with a
pipeline and a global output that must therefore never fire. -/
def c10Manager : ProcessingPipelineManager Nat :=
  { filters := [("P1", c10Pass), ("G", c10Throw)],
    outputs := [("O", c10Output)],
    pipelines := [{ name := "P10", filter := none, filters := none, outputs := ["O"] }],
    globalFilters := ["P1", "G"], globalOutputs := ["O"] }

/-! ## Helper lemmas -/

/-- Every action recorded by the global-filter loop is a filter invocation of
a name in the list. -/
theorem applyGlobalFiltersAux_actions {ρ : Type} (st : ProcessingPipelineManager ρ)
    (r : ρ) (l : List String) :
    ∀ a ∈ (applyGlobalFiltersAux st r l).1, ∃ n, n ∈ l ∧ a = Action.filterCall n r := by
  induction l with
  | nil => simp [applyGlobalFiltersAux]
  | cons n rest ih =>
    intro a ha
    unfold applyGlobalFiltersAux at ha
    split at ha
    · obtain ⟨m, hm, rfl⟩ := ih a ha
      exact ⟨m, List.mem_cons_of_mem _ hm, rfl⟩
    · split at ha
      · simp only [List.mem_cons] at ha
        rcases ha with rfl | ha
        · exact ⟨n, List.mem_cons_self _ _, rfl⟩
        · obtain ⟨m, hm, rfl⟩ := ih a ha
          exact ⟨m, List.mem_cons_of_mem _ hm, rfl⟩
      · simp only [List.mem_singleton] at ha
        exact ⟨n, List.mem_cons_self _ _, ha⟩
      · simp only [List.mem_singleton] at ha
        exact ⟨n, List.mem_cons_self _ _, ha⟩

/-- When the global filters reject a record, `processRecord` stops with the
`record-filtered-global` event alone. -/
theorem processRecord_of_rejected {ρ : Type} (st : ProcessingPipelineManager ρ)
    (r : ρ) (filePath : String) (lineNumber : Nat)
    (h : (applyGlobalFilters st r).2 = false) :
    processRecord st r filePath lineNumber =
      ((applyGlobalFilters st r).1, [PMEvent.filteredGlobal r filePath lineNumber]) := by
  simp [processRecord, h]

/-- If every name before `g` in the global-filter list lets the record
through and `g`'s filter throws, the loop returns `false`. -/
theorem applyGlobalFiltersAux_error_false {ρ : Type}
    (st : ProcessingPipelineManager ρ) (r : ρ) (g : String)
    (gf : FilterPlugin ρ) (emsg : String) (gs2 : List String)
    (hg : getFilterPlugin st g = some gf)
    (hthrow : gf.filter r = Except.error emsg) :
    ∀ gs1, (∀ n ∈ gs1, globalFilterStepPasses st r n = true) →
      (applyGlobalFiltersAux st r (gs1 ++ g :: gs2)).2 = false := by
  intro gs1
  induction gs1 with
  | nil =>
    intro _
    simp [applyGlobalFiltersAux, hg, hthrow]
  | cons n rest ih =>
    intro hpre
    have hn : globalFilterStepPasses st r n = true := hpre n (List.mem_cons_self _ _)
    have hrest : ∀ m ∈ rest, globalFilterStepPasses st r m = true :=
      fun m hm => hpre m (List.mem_cons_of_mem _ hm)
    rw [List.cons_append]
    unfold applyGlobalFiltersAux
    cases hgn : getFilterPlugin st n with
    | none => simpa [hgn] using ih hrest
    | some f =>
      cases hf : f.filter r with
      | ok b =>
        cases b
        · simp [globalFilterStepPasses, hgn, hf] at hn
        · simpa [hgn, hf] using ih hrest
      | error e => simp [globalFilterStepPasses, hgn, hf] at hn

/-- The stored offset right after `filePositions.set(path, n)`. -/
theorem getFilePosition_setFilePosition (st : ProcessorState) (p : String) (n : Nat) :
    getFilePosition (setFilePosition st p n) p = n := by
  simp [getFilePosition, setFilePosition]

/-- Unfolding for the buffered read when there is nothing new:
`size == lastPosition`. -/
theorem processFileWithBuffering_no_new_data {ρ : Type}
    (parse : List Char → Except String ρ) (st : ProcessorState)
    (filePath : String) (content : List Char)
    (h : getFilePosition st filePath = content.length) :
    processFileWithBuffering parse st filePath content = (st, [], []) := by
  simp [processFileWithBuffering, h]

/-- Unfolding for the buffered read when the file has grown:
`lastPosition < size`. -/
theorem processFileWithBuffering_grown {ρ : Type}
    (parse : List Char → Except String ρ) (st : ProcessorState)
    (filePath : String) (content : List Char)
    (h : getFilePosition st filePath < content.length) :
    processFileWithBuffering parse st filePath content =
      (setFilePosition st filePath content.length,
       (parseLines parse filePath
          (getLineNumberFromPosition filePath (getFilePosition st filePath))
          (splitLines (content.drop (getFilePosition st filePath)))).1,
       (parseLines parse filePath
          (getLineNumberFromPosition filePath (getFilePosition st filePath))
          (splitLines (content.drop (getFilePosition st filePath)))).2) := by
  have h1 : ¬ content.length < getFilePosition st filePath := Nat.not_lt.mpr (Nat.le_of_lt h)
  have h2 : ¬ content.length = getFilePosition st filePath := Nat.ne_of_gt h
  simp [processFileWithBuffering, h1, h2]

/-! ## Claim theorems -/

/-- Claim C1 (code bug): the pipeline engine never consults the `filters`
list of a pipeline.  In `c1Manager`, pipeline `P` declares
`filters = ["A", "B"]` and filter `A` rejects every record, yet
`processRecord` invokes output `X`, emits `record-output-pipeline`, reports
the pipeline as unfiltered/successful, and emits no
`record-filtered-pipeline` event. -/
theorem filters_list_ignored_on_record :
    (getFilterPlugin c1Manager "A").map (fun f => f.filter 0) = some (Except.ok false) ∧
    c1Pipeline.filters = some ["A", "B"] ∧
    processRecord c1Manager 0 "f" 1 =
      ([Action.outputCall "X" 0],
       [PMEvent.outputPipeline 0 "P" "X" "f" 1,
        PMEvent.pipelineResults 0 "f" 1
          [{ pipelineName := "P", success := true, filtered := some false, error := none,
             outputResults := [{ outputName := "X", success := true, error := none }] }]]) :=
  ⟨rfl, rfl, rfl⟩

/-- Claim C2 (code bug): the buffered read parses the torn trailing line.
For file content `"a\nb"` (no trailing newline) and stored offset 0, the
source parses line `b` and advances the offset to the full size 3, instead
of stopping after the last complete line (offset 2) and leaving `b` to be
re-read. -/
theorem torn_trailing_line_parsed :
    processFileWithBuffering (fun l => Except.ok l) ⟨false, [], true⟩ "f"
        ['a', '\n', 'b'] =
      (⟨false, [("f", 3)], true⟩, [], [(['a'], 1), (['b'], 2)]) :=
  rfl

/-- Claim C3 (code bug): after truncation recovery the offset is never
advanced.  With stored offset 4 and the file rewritten to `"a\n"`, the
truncation read resets the offset to 0 and processes record `a` — but
`processFileComplete` leaves the offset at 0, so the next read (after the
file grows to `"a\nb\n"`) re-reads from byte 0 and processes record `a` a
second time. -/
theorem truncation_reread_double_processes :
    processFileWithBuffering (fun l => Except.ok l) ⟨false, [("f", 4)], true⟩ "f"
        ['a', '\n'] =
      (⟨false, [("f", 0)], true⟩, [], [(['a'], 1)]) ∧
    processFileWithBuffering (fun l => Except.ok l) ⟨false, [("f", 0)], true⟩ "f"
        ['a', '\n', 'b', '\n'] =
      (⟨false, [("f", 4)], true⟩, [], [(['a'], 1), (['b'], 2)]) :=
  ⟨rfl, rfl⟩

/-- Claim C9: the concurrency guard.  A `processFile` call arriving while
another is in flight (`isProcessing = true`) returns at once with only the
warning: the state (offset table included) is unchanged, no records are
produced, and nothing is queued. -/
theorem processFile_concurrency_guard {ρ : Type}
    (parse : List Char → Except String ρ) (st : ProcessorState)
    (filePath : String) (content : Option (List Char))
    (h : st.isProcessing = true) :
    processFile parse st filePath content =
      (st, [PEvent.warnAlreadyProcessing filePath], []) := by
  simp [processFile, h]

/-- Witness for C9 at a concrete busy state. -/
theorem processFile_concurrency_guard_witness :
    (⟨true, [("f", 5)], true⟩ : ProcessorState).isProcessing = true ∧
    processFile c9Parse ⟨true, [("f", 5)], true⟩ "g" (some ['a']) =
      (⟨true, [("f", 5)], true⟩, [PEvent.warnAlreadyProcessing "g"], []) :=
  ⟨rfl, processFile_concurrency_guard c9Parse ⟨true, [("f", 5)], true⟩ "g" (some ['a']) rfl⟩

/-- Claim C8: the server lifecycle state machine.  `start` on a stopped
server with an existing watch root moves to Running and emits `started`;
`start` while Running or `stop` while Stopped changes nothing and only
warns; `start` with a missing watch root throws and leaves the server
stopped. -/
theorem server_lifecycle (r w d : Bool) (dir : String) :
    (r = false → d = true →
      JsonlStreamServer.start ⟨r, w⟩ dir d = (⟨true, true⟩, [SEvent.started], none)) ∧
    (r = true →
      JsonlStreamServer.start ⟨r, w⟩ dir d = (⟨r, w⟩, [SEvent.warnAlreadyRunning], none)) ∧
    (r = true → JsonlStreamServer.stop ⟨r, w⟩ = (⟨false, false⟩, [SEvent.stopped])) ∧
    (r = false → JsonlStreamServer.stop ⟨r, w⟩ = (⟨r, w⟩, [SEvent.warnNotRunning])) ∧
    (r = false → d = false →
      JsonlStreamServer.start ⟨r, w⟩ dir d =
        (⟨r, w⟩, [], some ("監視ディレクトリが存在しません: " ++ dir)) ∧
      (JsonlStreamServer.start ⟨r, w⟩ dir d).1.isRunning = false) := by
  cases r <;> cases d <;>
    simp [JsonlStreamServer.start, JsonlStreamServer.stop]

/-- Witness for C8 exercising all five transitions concretely. -/
theorem server_lifecycle_witness :
    JsonlStreamServer.start ⟨false, false⟩ "w" true = (⟨true, true⟩, [SEvent.started], none) ∧
    JsonlStreamServer.start ⟨true, true⟩ "w" true = (⟨true, true⟩, [SEvent.warnAlreadyRunning], none) ∧
    JsonlStreamServer.stop ⟨true, true⟩ = (⟨false, false⟩, [SEvent.stopped]) ∧
    JsonlStreamServer.stop ⟨false, false⟩ = (⟨false, false⟩, [SEvent.warnNotRunning]) ∧
    JsonlStreamServer.start ⟨false, true⟩ "w" false =
      (⟨false, true⟩, [], some ("監視ディレクトリが存在しません: " ++ "w")) :=
  ⟨(server_lifecycle false false true "w").1 rfl rfl,
   (server_lifecycle true true true "w").2.1 rfl,
   (server_lifecycle true true true "w").2.2.1 rfl,
   (server_lifecycle false false true "w").2.2.2.1 rfl,
   ((server_lifecycle false true false "w").2.2.2.2 rfl rfl).1⟩

/-- Claim C4: global-filter precedence.  If the global filters reject a
record, `processRecord` emits exactly the `record-filtered-global` event,
and the only plugin invocations performed are global-filter calls — no
pipeline filter, no output (pipeline or global), no `pipeline-results`
report. -/
theorem global_filter_precedence {ρ : Type} (st : ProcessingPipelineManager ρ)
    (r : ρ) (filePath : String) (lineNumber : Nat)
    (h : (applyGlobalFilters st r).2 = false) :
    processRecord st r filePath lineNumber =
      ((applyGlobalFilters st r).1, [PMEvent.filteredGlobal r filePath lineNumber]) ∧
    (∀ a ∈ (processRecord st r filePath lineNumber).1,
      ∃ n, n ∈ st.globalFilters ∧ a = Action.filterCall n r) ∧
    (∀ a ∈ (processRecord st r filePath lineNumber).1, Action.isOutputCall a = false) := by
  have h1 := processRecord_of_rejected st r filePath lineNumber h
  refine ⟨h1, ?_, ?_⟩
  · rw [h1]
    exact applyGlobalFiltersAux_actions st r st.globalFilters
  · rw [h1]
    intro a ha
    obtain ⟨n, _, rfl⟩ := applyGlobalFiltersAux_actions st r st.globalFilters a ha
    rfl

/-- Witness for C4 at a manager whose only global filter rejects. -/
theorem global_filter_precedence_witness :
    (applyGlobalFilters c4Manager 7).2 = false ∧
    processRecord c4Manager 7 "f" 3 =
      ((applyGlobalFilters c4Manager 7).1, [PMEvent.filteredGlobal 7 "f" 3]) :=
  ⟨rfl, (global_filter_precedence c4Manager 7 "f" 3 rfl).1⟩

/-- Claim C5: output isolation.  If output `x` throws for a record and
output `y` succeeds, a pipeline with outputs `[x, y]` (and no filter, or
equivalently a passing filter) still invokes `y`, and its report lists `x`
as failed with the error text and `y` as succeeded; the remaining pipelines
are still evaluated (the results list continues with `rest`). -/
theorem output_isolation {ρ : Type} (st : ProcessingPipelineManager ρ)
    (p : ProcessingPipeline) (rest : List ProcessingPipeline) (r : ρ)
    (filePath : String) (lineNumber : Nat) (x y : String)
    (ox oy : OutputPlugin ρ) (emsg : String)
    (hfilt : p.filter = none) (houts : p.outputs = [x, y])
    (hx : getOutputPlugin st x = some ox) (hxe : ox.output r = Except.error emsg)
    (hy : getOutputPlugin st y = some oy) (hyo : oy.output r = Except.ok ())
    (hps : st.pipelines = p :: rest) :
    (processPipeline st p r filePath lineNumber).2.2 =
      Except.ok
        { pipelineName := p.name, success := true, filtered := some false,
          error := none,
          outputResults := [{ outputName := x, success := false, error := some emsg },
                            { outputName := y, success := true, error := none }] } ∧
    Action.outputCall y r ∈ (processPipeline st p r filePath lineNumber).1 ∧
    (processPipelines st r filePath lineNumber).2.2 =
      { pipelineName := p.name, success := true, filtered := some false, error := none,
        outputResults := [{ outputName := x, success := false, error := some emsg },
                          { outputName := y, success := true, error := none }] }
        :: (runPipelines st r filePath lineNumber rest).2.2 := by
  have hrun : runPipelineOutputs st p.name r filePath lineNumber [x, y] =
      ([Action.outputCall x r, Action.outputCall y r],
       [PMEvent.outputPipeline r p.name y filePath lineNumber],
       [{ outputName := x, success := false, error := some emsg },
        { outputName := y, success := true, error := none }]) := by
    simp [runPipelineOutputs, hx, hy, hxe, hyo]
  have hpp : processPipeline st p r filePath lineNumber =
      ([Action.outputCall x r, Action.outputCall y r],
       [PMEvent.outputPipeline r p.name y filePath lineNumber],
       Except.ok
         { pipelineName := p.name, success := true, filtered := some false,
           error := none,
           outputResults := [{ outputName := x, success := false, error := some emsg },
                             { outputName := y, success := true, error := none }] }) := by
    simp [processPipeline, hfilt, houts, hrun]
  refine ⟨by rw [hpp], by rw [hpp]; simp, ?_⟩
  unfold processPipelines
  rw [hps]
  simp [runPipelines, hpp]

/-- Witness for C5: `X` throws `boom`, `Y` succeeds, the report shows
`X` failed / `Y` succeeded. -/
theorem output_isolation_witness :
    (processPipeline c5Manager c5Pipeline 3 "f" 2).2.2 =
      Except.ok
        { pipelineName := "P5", success := true, filtered := some false,
          error := none,
          outputResults := [{ outputName := "X", success := false, error := some "boom" },
                            { outputName := "Y", success := true, error := none }] } ∧
    Action.outputCall "Y" 3 ∈ (processPipeline c5Manager c5Pipeline 3 "f" 2).1 ∧
    (processPipelines c5Manager 3 "f" 2).2.2 =
      { pipelineName := "P5", success := true, filtered := some false, error := none,
        outputResults := [{ outputName := "X", success := false, error := some "boom" },
                          { outputName := "Y", success := true, error := none }] }
        :: (runPipelines c5Manager 3 "f" 2 []).2.2 :=
  output_isolation c5Manager c5Pipeline [] 3 "f" 2 "X" "Y" c5OutX c5OutY "boom"
    rfl rfl rfl rfl rfl rfl rfl

/-- Claim C6: missing-registration isolation.  A pipeline naming an
unregistered filter contributes a failed result for itself only — trace,
events and results of the remaining pipelines are exactly those of the
loop without it; and an unregistered output name contributes a failed
output-result entry while the remaining outputs of that pipeline still
run. -/
theorem missing_plugin_isolation {ρ : Type} (st st2 : ProcessingPipelineManager ρ)
    (p : ProcessingPipeline) (rest : List ProcessingPipeline) (r r2 : ρ)
    (filePath filePath2 : String) (lineNumber lineNumber2 : Nat)
    (fn pname o : String) (os : List String)
    (hpf : p.filter = some fn) (hmiss : getFilterPlugin st fn = none)
    (hps : st.pipelines = p :: rest)
    (hoMiss : getOutputPlugin st2 o = none) :
    (processPipelines st r filePath lineNumber).2.2 =
      { pipelineName := p.name, success := false, filtered := none,
        error := some ("フィルターが見つかりません: " ++ fn), outputResults := [] }
        :: (runPipelines st r filePath lineNumber rest).2.2 ∧
    (processPipelines st r filePath lineNumber).1 =
      (runPipelines st r filePath lineNumber rest).1 ∧
    (processPipelines st r filePath lineNumber).2.1 =
      (runPipelines st r filePath lineNumber rest).2.1 ∧
    runPipelineOutputs st2 pname r2 filePath2 lineNumber2 (o :: os) =
      ((runPipelineOutputs st2 pname r2 filePath2 lineNumber2 os).1,
       (runPipelineOutputs st2 pname r2 filePath2 lineNumber2 os).2.1,
       { outputName := o, success := false, error := some "Output plugin not found" }
         :: (runPipelineOutputs st2 pname r2 filePath2 lineNumber2 os).2.2) := by
  have hpp : processPipeline st p r filePath lineNumber =
      ([], [], Except.error ("フィルターが見つかりません: " ++ fn)) := by
    simp [processPipeline, hpf, hmiss]
  refine ⟨?_, ?_, ?_, ?_⟩
  · unfold processPipelines
    rw [hps]
    simp [runPipelines, hpp]
  · unfold processPipelines
    rw [hps]
    simp [runPipelines, hpp]
  · unfold processPipelines
    rw [hps]
    simp [runPipelines, hpp]
  · simp [runPipelineOutputs, hoMiss]

/-- Witness for C6: pipeline `P6` names the unregistered filter `NOPE`;
pipeline `Q6` still runs; the unregistered output `MISSING` yields a failed
entry while `O` still runs after it. -/
theorem missing_plugin_isolation_witness :
    (processPipelines c6Manager 1 "f" 1).2.2 =
      { pipelineName := "P6", success := false, filtered := none,
        error := some ("フィルターが見つかりません: " ++ "NOPE"), outputResults := [] }
        :: (runPipelines c6Manager 1 "f" 1 [c6PipelineQ]).2.2 ∧
    (processPipelines c6Manager 1 "f" 1).1 =
      (runPipelines c6Manager 1 "f" 1 [c6PipelineQ]).1 ∧
    (processPipelines c6Manager 1 "f" 1).2.1 =
      (runPipelines c6Manager 1 "f" 1 [c6PipelineQ]).2.1 ∧
    runPipelineOutputs c6Manager "P6" 2 "g" 9 ("MISSING" :: ["O"]) =
      ((runPipelineOutputs c6Manager "P6" 2 "g" 9 ["O"]).1,
       (runPipelineOutputs c6Manager "P6" 2 "g" 9 ["O"]).2.1,
       { outputName := "MISSING", success := false, error := some "Output plugin not found" }
         :: (runPipelineOutputs c6Manager "P6" 2 "g" 9 ["O"]).2.2) :=
  missing_plugin_isolation c6Manager c6Manager c6PipelineP [c6PipelineQ] 1 2 "f" "g" 1 9
    "NOPE" "P6" "MISSING" ["O"] rfl rfl rfl rfl

/-- Claim C7: offset monotonicity under appends (buffering enabled, no
truncation).  Starting from a stored offset within the file, after a read
the stored offset equals the size observed at the start of that read (so
offsets never decrease); a read with `size == offset` returns no records
and leaves the state untouched; each read parses exactly the lines of the
byte range `[offset, size)` — in particular, after an append the second
read parses exactly the appended suffix, so no record is parsed twice. -/
theorem buffered_offset_monotonic {ρ : Type} (parse : List Char → Except String ρ)
    (st : ProcessorState) (filePath : String) (c1 ext : List Char)
    (h0 : getFilePosition st filePath ≤ c1.length) :
    getFilePosition (processFileWithBuffering parse st filePath c1).1 filePath = c1.length ∧
    getFilePosition st filePath ≤
      getFilePosition (processFileWithBuffering parse st filePath c1).1 filePath ∧
    getFilePosition
        (processFileWithBuffering parse
          (processFileWithBuffering parse st filePath c1).1 filePath (c1 ++ ext)).1
        filePath = c1.length + ext.length ∧
    (getFilePosition st filePath = c1.length →
      (processFileWithBuffering parse st filePath c1).1 = st ∧
      (processFileWithBuffering parse st filePath c1).2.2 = []) ∧
    (processFileWithBuffering parse st filePath c1).2.2 =
      (parseLines parse filePath
        (getLineNumberFromPosition filePath (getFilePosition st filePath))
        (splitLines (c1.drop (getFilePosition st filePath)))).2 ∧
    (processFileWithBuffering parse
        (processFileWithBuffering parse st filePath c1).1 filePath (c1 ++ ext)).2.2 =
      (parseLines parse filePath (getLineNumberFromPosition filePath c1.length)
        (splitLines ext)).2 := by
  have hread1 :
      getFilePosition (processFileWithBuffering parse st filePath c1).1 filePath = c1.length ∧
      (processFileWithBuffering parse st filePath c1).2.2 =
        (parseLines parse filePath
          (getLineNumberFromPosition filePath (getFilePosition st filePath))
          (splitLines (c1.drop (getFilePosition st filePath)))).2 := by
    rcases lt_or_eq_of_le h0 with hlt | heq
    · rw [processFileWithBuffering_grown parse st filePath c1 hlt]
      exact ⟨getFilePosition_setFilePosition st filePath c1.length, rfl⟩
    · rw [processFileWithBuffering_no_new_data parse st filePath c1 heq]
      refine ⟨heq, ?_⟩
      rw [heq, List.drop_length]
      rfl
  have hpos1 := hread1.1
  have hread2 :
      getFilePosition
          (processFileWithBuffering parse
            (processFileWithBuffering parse st filePath c1).1 filePath (c1 ++ ext)).1
          filePath = c1.length + ext.length ∧
      (processFileWithBuffering parse
          (processFileWithBuffering parse st filePath c1).1 filePath (c1 ++ ext)).2.2 =
        (parseLines parse filePath (getLineNumberFromPosition filePath c1.length)
          (splitLines ext)).2 := by
    cases ext with
    | nil =>
      have heq2 : getFilePosition (processFileWithBuffering parse st filePath c1).1 filePath
          = (c1 ++ ([] : List Char)).length := by
        rw [List.append_nil]
        exact hpos1
      rw [processFileWithBuffering_no_new_data parse _ filePath (c1 ++ []) heq2]
      constructor
      · rw [hpos1]
        simp
      · rfl
    | cons e es =>
      have hlt2 : getFilePosition (processFileWithBuffering parse st filePath c1).1 filePath
          < (c1 ++ e :: es).length := by
        rw [hpos1, List.length_append]
        simp
      rw [processFileWithBuffering_grown parse _ filePath (c1 ++ e :: es) hlt2]
      constructor
      · rw [getFilePosition_setFilePosition, List.length_append]
      · rw [hpos1, List.drop_left]
  refine ⟨hread1.1, ?_, hread2.1, ?_, hread1.2, hread2.2⟩
  · rw [hread1.1]
    exact h0
  · intro heq
    rw [processFileWithBuffering_no_new_data parse st filePath c1 heq]
    exact ⟨rfl, rfl⟩

/-- Witness for C7: file `"a\n"` read from offset 0, then the append
`"b\n"`; offsets advance 0 → 2 → 4 and the second read parses exactly the
appended suffix. -/
theorem buffered_offset_monotonic_witness :
    getFilePosition (processFileWithBuffering c7Parse c7State "f" ['a', '\n']).1 "f" = 2 ∧
    getFilePosition
        (processFileWithBuffering c7Parse
          (processFileWithBuffering c7Parse c7State "f" ['a', '\n']).1 "f"
          (['a', '\n'] ++ ['b', '\n'])).1 "f" = 4 ∧
    (processFileWithBuffering c7Parse
        (processFileWithBuffering c7Parse c7State "f" ['a', '\n']).1 "f"
        (['a', '\n'] ++ ['b', '\n'])).2.2 =
      (parseLines c7Parse "f" (getLineNumberFromPosition "f" 2)
        (splitLines ['b', '\n'])).2 := by
  have h := buffered_offset_monotonic c7Parse c7State "f" ['a', '\n'] ['b', '\n'] (by decide)
  exact ⟨h.1, h.2.2.1, h.2.2.2.2.2⟩

/-- Claim C10: a throwing global filter rejects the record.  If every
earlier global filter lets the record through and filter `g` throws,
`applyGlobalFilters` returns false, `processRecord` emits only
`record-filtered-global` (no `pipeline-results` report, so the error is
recorded nowhere), and no output is invoked. -/
theorem global_filter_error_rejects {ρ : Type} (st : ProcessingPipelineManager ρ)
    (r : ρ) (filePath : String) (lineNumber : Nat)
    (gs1 gs2 : List String) (g : String) (gf : FilterPlugin ρ) (emsg : String)
    (hgs : st.globalFilters = gs1 ++ g :: gs2)
    (hpre : ∀ n ∈ gs1, globalFilterStepPasses st r n = true)
    (hg : getFilterPlugin st g = some gf)
    (hthrow : gf.filter r = Except.error emsg) :
    (applyGlobalFilters st r).2 = false ∧
    processRecord st r filePath lineNumber =
      ((applyGlobalFilters st r).1, [PMEvent.filteredGlobal r filePath lineNumber]) ∧
    (∀ a ∈ (processRecord st r filePath lineNumber).1, Action.isOutputCall a = false) := by
  have hfalse : (applyGlobalFilters st r).2 = false := by
    unfold applyGlobalFilters
    rw [hgs]
    exact applyGlobalFiltersAux_error_false st r g gf emsg gs2 hg hthrow gs1 hpre
  have h1 := processRecord_of_rejected st r filePath lineNumber hfalse
  refine ⟨hfalse, h1, ?_⟩
  rw [h1]
  intro a ha
  obtain ⟨n, _, rfl⟩ := applyGlobalFiltersAux_actions st r st.globalFilters a ha
  rfl

/-- Witness for C10: global filters `[P1, G]` where `P1` passes and `G`
throws `kaboom`. -/
theorem global_filter_error_rejects_witness :
    (applyGlobalFilters c10Manager 5).2 = false ∧
    processRecord c10Manager 5 "f" 1 =
      ((applyGlobalFilters c10Manager 5).1, [PMEvent.filteredGlobal 5 "f" 1]) := by
  have h := global_filter_error_rejects c10Manager 5 "f" 1 ["P1"] [] "G" c10Throw "kaboom"
    rfl (by decide) rfl rfl
  exact ⟨h.1, h.2.1⟩

end Cctailpipe
